import Mathlib

/-!
Shallow embedding of the coverage-query pipeline of `src/nlp.py`
(`parse_filters` and `draw_sensor_piechart`), plus spec-side rules used
for refinement statements.  Tabular data is modelled as lists of rows;
float durations are modelled as exact rationals; missing cells (NaN) as
`Option.none`.
-/

/-- `leadsList p s` : `p` is a prefix of `s` (character lists). -/
def leadsList (p s : List Char) : Bool :=
  match p, s with
  | [], _ => true
  | _ :: _, [] => false
  | a :: p1, b :: s1 => a == b && leadsList p1 s1

/-- Python `p in s` on strings: `p` occurs as a contiguous substring of `s`. -/
def listContains (p s : List Char) : Bool :=
  leadsList p s ||
    match s with
    | [] => false
    | _ :: t => listContains p t

/-- Python regex `\w` over the ASCII queries used here: letter, digit or underscore. -/
def isWordChar (c : Char) : Bool :=
  c.isAlphanum || c == '_'

/-- The left word-boundary test of `\b`: start of string, or previous char non-word. -/
def boundaryBefore (prev : Option Char) : Bool :=
  match prev with
  | none => true
  | some c => !isWordChar c

/-- The right word-boundary test of `\b`: end of string, or next char non-word. -/
def nonWordHead (s : List Char) : Bool :=
  match s with
  | [] => true
  | c :: _ => !isWordChar c

/-- Whole-word occurrence of `w` at the current position (`prev` is the char before it). -/
def matchesWordAt (w s : List Char) (prev : Option Char) : Bool :=
  boundaryBefore prev && leadsList w s && nonWordHead (s.drop w.length)

/-- Python `re.search(r"\bw\b", s)`: `w` occurs somewhere in `s` as a whole word. -/
def searchWord (w : List Char) (prev : Option Char) (s : List Char) : Bool :=
  matchesWordAt w s prev ||
    match s with
    | [] => false
    | c :: t => searchWord w (some c) t

/-- Python `q.lower()`, as a char list (ASCII queries). -/
def lowerData (q : String) : List Char :=
  q.data.map Char.toLower

/-- Python `str.capitalize()`: first char upper, rest lower. -/
def capitalizeStr (s : String) : String :=
  match s.data with
  | [] => s
  | c :: rest => ⟨c.toUpper :: rest.map Char.toLower⟩

/-- Python `str.upper()`. -/
def upperStr (s : String) : String :=
  ⟨s.data.map Char.toUpper⟩

/-- pandas `str.contains(needle, case=False)` for literal needles:
case-insensitive substring test. -/
def containsCI (needle hay : String) : Bool :=
  listContains (lowerData needle) (lowerData hay)

def platform_keywords : List String :=
  ["orb", "kairos", "fiber", "afo", "parrot", "quantix",
   "neros", "sturnas", "boresight", "mavic", "blimp"]

def sensor_keywords : List String :=
  ["pcl", "gotcha", "ring_5", "stardust"]

def wHigh : String := "high"
def wLow : String := "low"
def wMedium : String := "medium"
def wHighSpeed : String := "high speed"
def wFast : String := "fast"
def wLowSpeed : String := "low speed"
def wSlow : String := "slow"
def wMediumSpeed : String := "medium speed"
def sHigh : String := "High"
def sLow : String := "Low"
def sMedium : String := "Medium"
def sFast : String := "Fast"
def sSlow : String := "Slow"
def sPCL : String := "PCL"
def sEnter : String := "enter"

/-- The filter dictionary built by `parse_filters` (fields absent from the
Python dict are `none`; `c_uas` is always set by the default rule). -/
structure Filters where
  Platform : Option String
  Altitude : Option String
  Speed : Option String
  c_uas : Option String
deriving Repr, DecidableEq

/-- The platform loop of `parse_filters`: first keyword occurring as a plain
substring of the lowered query wins, capitalized; `break` after the first hit. -/
def findPlatform (kws : List String) (nl : List Char) : Option String :=
  match kws with
  | [] => none
  | w :: rest =>
      if listContains w.data nl then some (capitalizeStr w) else findPlatform rest nl

/-- The sensor loop of `parse_filters`: first keyword whose lowered form occurs
as a substring of the lowered query wins, uppercased. -/
def findSensor (kws : List String) (nl : List Char) : Option String :=
  match kws with
  | [] => none
  | w :: rest =>
      if listContains (lowerData w) nl then some (upperStr w) else findSensor rest nl

/-- `parse_filters` of `src/nlp.py`. -/
def parse_filters (q : String) : Filters :=
  let nl := lowerData q
  { Platform := findPlatform platform_keywords nl,
    Altitude :=
      if searchWord wHigh.data none nl then some sHigh
      else if searchWord wLow.data none nl then some sLow
      else if searchWord wMedium.data none nl then some sMedium
      else none,
    Speed :=
      if listContains wHighSpeed.data nl || listContains wFast.data nl then some sFast
      else if listContains wLowSpeed.data nl || listContains wSlow.data nl then some sSlow
      else if listContains wMediumSpeed.data nl then some sMedium
      else none,
    c_uas := some ((findSensor sensor_keywords nl).getD sPCL) }

/-- Row of the sortie mapping table (`sortie_tracker_type_mapping.csv`).
Cells that may be missing (NaN) are `Option`. -/
structure SortieRow where
  RID : String
  Platform : Option String
  Altitude : Option String
  Speed : Option String
  c_uas : Option String
deriving Repr, DecidableEq

/-- Row of the fence-events table (`fixedFences(in).csv`); durations as exact
rationals in place of floats. -/
structure FenceRow where
  track_id : String
  event_type : Option String
  seconds_in_range : Rat
deriving Repr, DecidableEq

/-- The two tables loaded once at module import. -/
structure Tables where
  mapping : List SortieRow
  fixed : List FenceRow
deriving Repr, DecidableEq

/-- pandas `df[col].str.contains(val, case=False, na=False)` on one cell:
a missing cell never matches (`na=False`). -/
def colMatches (val : String) (cell : Option String) : Bool :=
  match cell with
  | none => false
  | some s => containsCI val s

/-- One pass of the filter loop for one column: absent filter keeps all rows. -/
def filterField (get : SortieRow → Option String) (v : Option String)
    (rows : List SortieRow) : List SortieRow :=
  match v with
  | none => rows
  | some val => rows.filter (fun r => colMatches val (get r))

/-- The filter loop of `draw_sensor_piechart`, applied in the dict insertion
order Platform, Altitude, Speed (all three columns exist in the table). -/
def applyFilters (f : Filters) (rows : List SortieRow) : List SortieRow :=
  filterField (fun r => r.Speed) f.Speed
    (filterField (fun r => r.Altitude) f.Altitude
      (filterField (fun r => r.Platform) f.Platform rows))

/-- `merged["event_type"].str.lower() == "enter"` on one cell (NaN compares false). -/
def eventIsEnter (e : Option String) : Bool :=
  match e with
  | none => false
  | some s => s.data.map Char.toLower == sEnter.data

/-- The pairs a single fence row produces in the inner join with the filtered
sortie rows (`left_on="track_id", right_on="RID"`). -/
def pairsFor (f : FenceRow) (df : List SortieRow) : List (FenceRow × SortieRow) :=
  (df.filter (fun s => s.RID == f.track_id)).map (fun s => (f, s))

/-- `fixed.merge(df, left_on="track_id", right_on="RID", how="inner")`. -/
def mergedRows (fences : List FenceRow) (df : List SortieRow) :
    List (FenceRow × SortieRow) :=
  match fences with
  | [] => []
  | f :: rest => pairsFor f df ++ mergedRows rest df

/-- The joined rows retained for airtime accounting: enter events only. -/
def enterPairs (fences : List FenceRow) (df : List SortieRow) :
    List (FenceRow × SortieRow) :=
  (mergedRows fences df).filter (fun p => eventIsEnter p.1.event_type)

/-- `total_airtime`: sum of `seconds_in_range` over all enter-event rows. -/
def totalAirtime (fences : List FenceRow) (df : List SortieRow) : Rat :=
  ((enterPairs fences df).map (fun p => p.1.seconds_in_range)).sum

/-- The enter-event rows whose `c_uas` contains the sensor name (case-insensitive). -/
def sensorPairs (fences : List FenceRow) (df : List SortieRow) (sensor : String) :
    List (FenceRow × SortieRow) :=
  (enterPairs fences df).filter (fun p => colMatches sensor p.2.c_uas)

/-- `detected_airtime`: sum of `seconds_in_range` over the sensor-matched rows. -/
def detectedAirtime (fences : List FenceRow) (df : List SortieRow)
    (sensor : String) : Rat :=
  ((sensorPairs fences df sensor).map (fun p => p.1.seconds_in_range)).sum

/-- Semantic content of the returned image buffer: either the "no match"
placeholder text or a two-slice pie with the plotted sizes. -/
inductive Chart where
  | noMatch (message : String)
  | pie (detected undetected : Rat) (sensor : String)
deriving Repr, DecidableEq

/-- The summary dict returned by `draw_sensor_piechart` (the non-empty path
carries no `error` key, modelled as `none`). -/
structure Summary where
  error : Option String
  flights : Nat
  total_airtime_sec : Rat
  detected_airtime_sec : Rat
  coverage_pct : Rat
  filters_applied : Filters
  sensor : String
deriving Repr, DecidableEq

def noMatchWarning : String := "⚠️ No flights match the given filters."

/-- Steps 2-5 of `draw_sensor_piechart` after the query has been parsed:
the empty-result short circuit, join, enter-only sums, pie sizes and summary. -/
def coverageFrom (fences : List FenceRow) (df : List SortieRow)
    (sensor : String) (applied : Filters) : Chart × Summary :=
  if df.isEmpty then
    (Chart.noMatch noMatchWarning,
     { error := some noMatchWarning, flights := 0, total_airtime_sec := 0,
       detected_airtime_sec := 0, coverage_pct := 0,
       filters_applied := applied, sensor := sensor })
  else
    (Chart.pie (detectedAirtime fences df sensor)
       (max (totalAirtime fences df - detectedAirtime fences df sensor) 0) sensor,
     { error := none, flights := df.length,
       total_airtime_sec := totalAirtime fences df,
       detected_airtime_sec := detectedAirtime fences df sensor,
       coverage_pct :=
         if totalAirtime fences df ≠ 0 then
           detectedAirtime fences df sensor / totalAirtime fences df * 100
         else 0,
       filters_applied := applied, sensor := sensor })

/-- The applied column filters: the parsed dict with `c_uas` popped. -/
def appliedOf (q : String) : Filters :=
  { parse_filters q with c_uas := none }

/-- `sensor_name = filters.pop("c_uas", "PCL")`. -/
def sensorOf (q : String) : String :=
  ((parse_filters q).c_uas).getD sPCL

/-- `draw_sensor_piechart` of `src/nlp.py`, over explicit loaded tables. -/
def draw_sensor_piechart (t : Tables) (q : String) : Chart × Summary :=
  coverageFrom t.fixed (applyFilters (appliedOf q) t.mapping) (sensorOf q)
    (appliedOf q)

def emptyFilters : Filters :=
  { Platform := none, Altitude := none, Speed := none, c_uas := none }

/-- Spec-side Platform rule, as amended: the capitalized form of the first
vocabulary name occurring in the query as a case-insensitive substring (not
required to be a whole word); unset when no name occurs. -/
def specPlatformRule (q : String) : Option String :=
  (platform_keywords.find? (fun w => listContains w.data (lowerData q))).map
    capitalizeStr

/-- Spec-side sensor rule: the uppercased first sensor-vocabulary name
occurring in the query as a case-insensitive substring; the fixed fallback
"PCL" when none occurs. -/
def specSensorRule (q : String) : String :=
  match sensor_keywords.find? (fun w => listContains (lowerData w) (lowerData q)) with
  | some w => upperStr w
  | none => sPCL

/-- Per-field check used to state the filtering semantics: an absent filter
accepts every row; a present one requires a case-insensitive substring match
on a present cell. -/
def fieldOk (get : SortieRow → Option String) (v : Option String)
    (r : SortieRow) : Bool :=
  match v with
  | none => true
  | some val => colMatches val (get r)

/-- Spec-side row-retention predicate: conjunction of the three field checks. -/
def rowSatisfies (f : Filters) (r : SortieRow) : Bool :=
  fieldOk (fun x => x.Platform) f.Platform r &&
  fieldOk (fun x => x.Altitude) f.Altitude r &&
  fieldOk (fun x => x.Speed) f.Speed r

def qEmpty : String := ""
def qOrb : String := "orb"
def qAbsorb : String := "absorb"
def qXHighSpeed : String := "xhigh speed"
def qHighSpeed : String := "high speed"

def rowA : SortieRow :=
  { RID := "A", Platform := some ("Orb"), Altitude := some ("High"),
    Speed := some ("Slow"), c_uas := some ("PCL") }

def rowB : SortieRow :=
  { RID := "B", Platform := some ("Kairos"), Altitude := some ("Low"),
    Speed := some ("Fast"), c_uas := some ("GOTCHA") }

def fenceEnterA30 : FenceRow :=
  { track_id := "A", event_type := some ("enter"), seconds_in_range := 30 }

def fenceEnterA45 : FenceRow :=
  { track_id := "A", event_type := some ("Enter"), seconds_in_range := 45 }

def fenceExitA : FenceRow :=
  { track_id := "A", event_type := some ("exit"), seconds_in_range := 999 }

/-- Scenario tables: two sortie rows match the (empty) filters; row A has two
enter events (30 s, 45 s) and row B has none; the exit event is separate. -/
def tC1 : Tables :=
  { mapping := [rowA, rowB], fixed := [fenceEnterA30, fenceEnterA45] }

def rowG : SortieRow :=
  { RID := "G", Platform := some ("Orb"), Altitude := some ("High"),
    Speed := some ("Slow"), c_uas := some ("GOTCHA") }

def fenceEnterG : FenceRow :=
  { track_id := "G", event_type := some ("enter"), seconds_in_range := 100 }

/-- Tables whose only joined row is detected by GOTCHA, not by the default
sensor PCL: positive total airtime with zero detected airtime. -/
def tC3 : Tables :=
  { mapping := [rowG], fixed := [fenceEnterG] }

/-- Tables whose single sortie row is a Kairos flight, so a query naming the
platform "orb" matches no rows. -/
def tC4 : Tables :=
  { mapping := [rowB], fixed := [fenceEnterA30] }

def kwOrb : String := "orb"
def sOrb : String := "Orb"

/-- Scenario tables for C1: both sortie rows match the empty filter set; row A
has two enter events (30 s and 45 s) and one exit event (999 s). -/
def tC1X : Tables :=
  { mapping := [rowA, rowB],
    fixed := [fenceEnterA30, fenceEnterA45, fenceExitA] }

theorem sum_map_filter_le {α : Type} (p : α → Bool) (g : α → Rat) (l : List α) :
    (∀ a ∈ l, 0 ≤ g a) → ((l.filter p).map g).sum ≤ (l.map g).sum := by
  induction l with
  | nil => intro _; simp
  | cons a l ih =>
    intro h
    have hl : ∀ x ∈ l, 0 ≤ g x := fun x hx => h x (List.mem_cons_of_mem a hx)
    have ha : 0 ≤ g a := h a (List.mem_cons_self a l)
    by_cases hp : p a
    · simp only [List.filter_cons, hp, if_true, List.map_cons, List.sum_cons]
      exact add_le_add_left (ih hl) (g a)
    · simp only [List.filter_cons, hp, Bool.false_eq_true, if_false,
        List.map_cons, List.sum_cons]
      exact le_trans (ih hl) (le_add_of_nonneg_left ha)

theorem sum_map_nonneg {α : Type} (g : α → Rat) (l : List α)
    (h : ∀ a ∈ l, 0 ≤ g a) : 0 ≤ (l.map g).sum := by
  apply List.sum_nonneg
  intro x hx
  obtain ⟨a, ha, rfl⟩ := List.mem_map.1 hx
  exact h a ha

theorem fst_mem_of_mem_mergedRows (fences : List FenceRow) (df : List SortieRow)
    (p : FenceRow × SortieRow) :
    p ∈ mergedRows fences df → p.1 ∈ fences := by
  induction fences with
  | nil => intro hp; simp [mergedRows] at hp
  | cons f rest ih =>
    intro hp
    rw [mergedRows, List.mem_append] at hp
    cases hp with
    | inl h =>
      rw [pairsFor, List.mem_map] at h
      obtain ⟨s, _, rfl⟩ := h
      exact List.mem_cons_self f rest
    | inr h => exact List.mem_cons_of_mem f (ih h)

theorem enter_seconds_nonneg (fences : List FenceRow) (df : List SortieRow)
    (h : ∀ f ∈ fences, 0 ≤ f.seconds_in_range) :
    ∀ p ∈ enterPairs fences df, 0 ≤ p.1.seconds_in_range := by
  intro p hp
  exact h p.1 (fst_mem_of_mem_mergedRows fences df p (List.mem_of_mem_filter hp))

theorem totalAirtime_nonneg (fences : List FenceRow) (df : List SortieRow)
    (h : ∀ f ∈ fences, 0 ≤ f.seconds_in_range) :
    0 ≤ totalAirtime fences df := by
  rw [totalAirtime]
  exact sum_map_nonneg _ _ (fun a ha => enter_seconds_nonneg fences df h a ha)

theorem detectedAirtime_nonneg (fences : List FenceRow) (df : List SortieRow)
    (sensor : String) (h : ∀ f ∈ fences, 0 ≤ f.seconds_in_range) :
    0 ≤ detectedAirtime fences df sensor := by
  rw [detectedAirtime]
  apply sum_map_nonneg
  intro a ha
  exact enter_seconds_nonneg fences df h a (List.mem_of_mem_filter ha)

theorem detectedAirtime_le_totalAirtime (fences : List FenceRow)
    (df : List SortieRow) (sensor : String)
    (h : ∀ f ∈ fences, 0 ≤ f.seconds_in_range) :
    detectedAirtime fences df sensor ≤ totalAirtime fences df := by
  rw [detectedAirtime, sensorPairs, totalAirtime]
  exact sum_map_filter_le _ _ _ (fun a ha => enter_seconds_nonneg fences df h a ha)

theorem filter_map_pair_non_enter (f : FenceRow)
    (hf : eventIsEnter f.event_type = false) (m : List SortieRow) :
    ((m.map (fun s => (f, s))).filter (fun p => eventIsEnter p.1.event_type))
      = [] := by
  induction m with
  | nil => rfl
  | cons s rest ih => simp [List.filter_cons, hf, ih]

theorem enterPairs_cons_non_enter (f : FenceRow) (fences : List FenceRow)
    (df : List SortieRow) (hf : eventIsEnter f.event_type = false) :
    enterPairs (f :: fences) df = enterPairs fences df := by
  rw [enterPairs, mergedRows, List.filter_append, pairsFor,
    filter_map_pair_non_enter f hf, List.nil_append, enterPairs]

theorem coverageFrom_cons_non_enter (f : FenceRow) (fences : List FenceRow)
    (df : List SortieRow) (sensor : String) (applied : Filters)
    (hf : eventIsEnter f.event_type = false) :
    coverageFrom (f :: fences) df sensor applied
      = coverageFrom fences df sensor applied := by
  simp only [coverageFrom, totalAirtime, detectedAirtime, sensorPairs,
    enterPairs_cons_non_enter f fences df hf]

theorem mem_filterField (get : SortieRow → Option String) (v : Option String)
    (rows : List SortieRow) (r : SortieRow) :
    r ∈ filterField get v rows ↔ r ∈ rows ∧ fieldOk get v r = true := by
  cases v with
  | none => simp [filterField, fieldOk]
  | some val => simp [filterField, fieldOk, List.mem_filter]

theorem findPlatform_eq_find (kws : List String) (nl : List Char) :
    findPlatform kws nl
      = (kws.find? (fun w => listContains w.data nl)).map capitalizeStr := by
  induction kws with
  | nil => rfl
  | cons w rest ih =>
    by_cases hw : listContains w.data nl
    · simp [findPlatform, hw, List.find?_cons_of_pos]
    · simp only [findPlatform, hw, Bool.false_eq_true, if_false, ih]
      rw [List.find?_cons_of_neg _ (by simp [hw])]

theorem findSensor_eq_find (kws : List String) (nl : List Char) :
    findSensor kws nl
      = (kws.find? (fun w => listContains (lowerData w) nl)).map upperStr := by
  induction kws with
  | nil => rfl
  | cons w rest ih =>
    by_cases hw : listContains (lowerData w) nl
    · simp [findSensor, hw, List.find?_cons_of_pos]
    · simp only [findSensor, hw, Bool.false_eq_true, if_false, ih]
      rw [List.find?_cons_of_neg _ (by simp [hw])]

theorem findPlatform_eq_none (kws : List String) (nl : List Char) :
    (∀ w ∈ kws, listContains w.data nl = false) → findPlatform kws nl = none := by
  induction kws with
  | nil => intro _; rfl
  | cons w rest ih =>
    intro h
    rw [findPlatform, h w (List.mem_cons_self w rest)]
    simp only [Bool.false_eq_true, if_false]
    exact ih (fun x hx => h x (List.mem_cons_of_mem w hx))

theorem findSensor_eq_none (kws : List String) (nl : List Char) :
    (∀ w ∈ kws, listContains (lowerData w) nl = false) →
      findSensor kws nl = none := by
  induction kws with
  | nil => intro _; rfl
  | cons w rest ih =>
    intro h
    rw [findSensor, h w (List.mem_cons_self w rest)]
    simp only [Bool.false_eq_true, if_false]
    exact ih (fun x hx => h x (List.mem_cons_of_mem w hx))

/-- Arithmetic core of the coverage formula `detected/total*100 if total else 0`:
bounds and zero characterization under the subset-sum invariants. -/
theorem coverage_arith (T D : Rat) (hT0 : 0 ≤ T) (hD0 : 0 ≤ D) (hDT : D ≤ T) :
    0 ≤ (if T ≠ 0 then D / T * 100 else 0)
    ∧ (if T ≠ 0 then D / T * 100 else 0) ≤ 100
    ∧ (T = 0 → (if T ≠ 0 then D / T * 100 else 0) = 0)
    ∧ ((if T ≠ 0 then D / T * 100 else 0) = 0 ↔ D = 0) := by
  by_cases hT : T = 0
  · have hD : D = 0 := le_antisymm (hT ▸ hDT) hD0
    simp [hT, hD]
  · have hTpos : 0 < T := lt_of_le_of_ne hT0 (Ne.symm hT)
    rw [if_pos hT]
    refine ⟨?_, ?_, fun h0 => absurd h0 hT, ?_⟩
    · exact mul_nonneg (div_nonneg hD0 hT0) (by norm_num)
    · have h1 : D / T ≤ 1 := (div_le_one hTpos).mpr hDT
      calc D / T * 100 ≤ 1 * 100 := mul_le_mul_of_nonneg_right h1 (by norm_num)
        _ = 100 := one_mul 100
    · rw [mul_eq_zero, div_eq_zero_iff]
      constructor
      · rintro ((h0 | h0) | h0)
        · exact h0
        · exact absurd h0 hT
        · norm_num at h0
      · intro h0
        exact Or.inl (Or.inl h0)

/-- C1: only joined rows whose event type equals "enter" case-insensitively
contribute to the airtime sums: prepending any non-enter fence event leaves the
whole result unchanged; and in the scenario with two matching sortie rows, one
carrying enter events of 30 s and 45 s plus an exit event of 999 s, the total
airtime is 75, not 1074. -/
theorem C1_enter_events_only (t : Tables) (q : String) (f : FenceRow)
    (hf : eventIsEnter f.event_type = false) :
    draw_sensor_piechart { t with fixed := f :: t.fixed } q
        = draw_sensor_piechart t q
    ∧ (draw_sensor_piechart tC1X qEmpty).2.total_airtime_sec = 75 := by
  constructor
  · show coverageFrom (f :: t.fixed) (applyFilters (appliedOf q) t.mapping)
        (sensorOf q) (appliedOf q)
      = coverageFrom t.fixed (applyFilters (appliedOf q) t.mapping)
        (sensorOf q) (appliedOf q)
    exact coverageFrom_cons_non_enter f t.fixed _ _ _ hf
  · have h : enterPairs tC1X.fixed (applyFilters (appliedOf qEmpty) tC1X.mapping)
        = [(fenceEnterA30, rowA), (fenceEnterA45, rowA)] := by decide
    have hne : (applyFilters (appliedOf qEmpty) tC1X.mapping).isEmpty = false := by
      decide
    unfold draw_sensor_piechart coverageFrom
    rw [hne]
    simp only [Bool.false_eq_true, if_false]
    show totalAirtime tC1X.fixed (applyFilters (appliedOf qEmpty) tC1X.mapping) = 75
    rw [totalAirtime, h]
    norm_num [fenceEnterA30, fenceEnterA45]

theorem C1_enter_events_only_witness :
    draw_sensor_piechart { tC3 with fixed := fenceExitA :: tC3.fixed } qEmpty
        = draw_sensor_piechart tC3 qEmpty
    ∧ (draw_sensor_piechart tC1X qEmpty).2.total_airtime_sec = 75 :=
  C1_enter_events_only tC3 qEmpty fenceExitA (by decide)

/-- C2: when every `seconds_in_range` in the loaded fence table is non-negative,
the detected airtime (a subset sum of the enter-event rows) never exceeds the
total airtime. -/
theorem C2_detected_le_total (t : Tables) (q : String)
    (h : ∀ f ∈ t.fixed, 0 ≤ f.seconds_in_range) :
    (draw_sensor_piechart t q).2.detected_airtime_sec
      ≤ (draw_sensor_piechart t q).2.total_airtime_sec := by
  unfold draw_sensor_piechart coverageFrom
  by_cases hdf : (applyFilters (appliedOf q) t.mapping).isEmpty = true
  · rw [if_pos hdf]
  · rw [if_neg hdf]
    exact detectedAirtime_le_totalAirtime t.fixed _ _ h

theorem C2_detected_le_total_witness :
    (draw_sensor_piechart tC1 qEmpty).2.detected_airtime_sec
      ≤ (draw_sensor_piechart tC1 qEmpty).2.total_airtime_sec :=
  C2_detected_le_total tC1 qEmpty (by decide)

/-- C3 counterexample: with non-negative durations, a query whose default
sensor PCL appears in no joined row's `c_uas` yields a positive total airtime
(100 s) with coverage 0, so coverage 0 does not imply total 0: "equals 0
exactly when total is 0" fails on the code. -/
theorem C3_counterexample :
    (∀ f ∈ tC3.fixed, 0 ≤ f.seconds_in_range)
    ∧ (draw_sensor_piechart tC3 qEmpty).2.total_airtime_sec = 100
    ∧ (draw_sensor_piechart tC3 qEmpty).2.coverage_pct = 0 := by
  have henter : enterPairs tC3.fixed (applyFilters (appliedOf qEmpty) tC3.mapping)
      = [(fenceEnterG, rowG)] := by decide
  have hsp : sensorPairs tC3.fixed (applyFilters (appliedOf qEmpty) tC3.mapping)
      (sensorOf qEmpty) = [] := by decide
  have hne : (applyFilters (appliedOf qEmpty) tC3.mapping).isEmpty = false := by
    decide
  refine ⟨by decide, ?_, ?_⟩
  · unfold draw_sensor_piechart coverageFrom
    rw [hne]
    simp only [Bool.false_eq_true, if_false]
    show totalAirtime tC3.fixed (applyFilters (appliedOf qEmpty) tC3.mapping) = 100
    rw [totalAirtime, henter]
    norm_num [fenceEnterG]
  · unfold draw_sensor_piechart coverageFrom
    rw [hne]
    simp only [Bool.false_eq_true, if_false]
    show (if totalAirtime tC3.fixed (applyFilters (appliedOf qEmpty) tC3.mapping) ≠ 0
        then detectedAirtime tC3.fixed (applyFilters (appliedOf qEmpty) tC3.mapping)
              (sensorOf qEmpty)
            / totalAirtime tC3.fixed (applyFilters (appliedOf qEmpty) tC3.mapping) * 100
        else 0) = 0
    rw [detectedAirtime, hsp]
    simp

/-- C3 (amended): with non-negative durations, `coverage_pct` always lies in
[0, 100]; it is 0 whenever `total_airtime_sec` is 0, but not only then: it is 0
exactly when `detected_airtime_sec` is 0. -/
theorem C3_coverage_range_amended (t : Tables) (q : String)
    (h : ∀ f ∈ t.fixed, 0 ≤ f.seconds_in_range) :
    0 ≤ (draw_sensor_piechart t q).2.coverage_pct
    ∧ (draw_sensor_piechart t q).2.coverage_pct ≤ 100
    ∧ ((draw_sensor_piechart t q).2.total_airtime_sec = 0 →
        (draw_sensor_piechart t q).2.coverage_pct = 0)
    ∧ ((draw_sensor_piechart t q).2.coverage_pct = 0 ↔
        (draw_sensor_piechart t q).2.detected_airtime_sec = 0) := by
  unfold draw_sensor_piechart coverageFrom
  by_cases hdf : (applyFilters (appliedOf q) t.mapping).isEmpty = true
  · rw [if_pos hdf]
    refine ⟨le_refl 0, ?_, fun _ => rfl, Iff.rfl⟩
    show (0 : Rat) ≤ 100
    decide
  · rw [if_neg hdf]
    exact coverage_arith
      (totalAirtime t.fixed (applyFilters (appliedOf q) t.mapping))
      (detectedAirtime t.fixed (applyFilters (appliedOf q) t.mapping) (sensorOf q))
      (totalAirtime_nonneg _ _ h)
      (detectedAirtime_nonneg _ _ _ h)
      (detectedAirtime_le_totalAirtime _ _ _ h)

theorem C3_coverage_range_amended_witness :
    0 ≤ (draw_sensor_piechart tC3 qEmpty).2.coverage_pct
    ∧ (draw_sensor_piechart tC3 qEmpty).2.coverage_pct ≤ 100
    ∧ ((draw_sensor_piechart tC3 qEmpty).2.total_airtime_sec = 0 →
        (draw_sensor_piechart tC3 qEmpty).2.coverage_pct = 0)
    ∧ ((draw_sensor_piechart tC3 qEmpty).2.coverage_pct = 0 ↔
        (draw_sensor_piechart tC3 qEmpty).2.detected_airtime_sec = 0) :=
  C3_coverage_range_amended tC3 qEmpty (by decide)

/-- C4: when the filters match no sortie rows, the function returns (without
raising) the "no match" placeholder together with a zeroed summary flagged by
the warning message. -/
theorem C4_empty_result (t : Tables) (q : String)
    (h : applyFilters (appliedOf q) t.mapping = []) :
    draw_sensor_piechart t q =
      (Chart.noMatch noMatchWarning,
       { error := some noMatchWarning, flights := 0, total_airtime_sec := 0,
         detected_airtime_sec := 0, coverage_pct := 0,
         filters_applied := appliedOf q, sensor := sensorOf q }) := by
  unfold draw_sensor_piechart
  rw [h]
  rfl

theorem C4_empty_result_witness :
    draw_sensor_piechart tC4 qOrb =
      (Chart.noMatch noMatchWarning,
       { error := some noMatchWarning, flights := 0, total_airtime_sec := 0,
         detected_airtime_sec := 0, coverage_pct := 0,
         filters_applied := appliedOf qOrb, sensor := sensorOf qOrb }) :=
  C4_empty_result tC4 qOrb (by decide)

/-- C5 counterexample: the platform scan is a plain substring test, not a
whole-word one: the query "absorb" contains "orb" only inside a longer word
(no whole-word occurrence), yet Platform is set to "Orb", contradicting the
claim that such a query sets no Platform filter. -/
theorem C5_counterexample :
    (parse_filters qAbsorb).Platform = some (sOrb)
    ∧ searchWord kwOrb.data none (lowerData qAbsorb) = false := by
  constructor <;> decide

/-- C5 (amended): the Platform filter is the capitalized form of the first
vocabulary name occurring in the query as a plain case-insensitive substring
(whole-word occurrence NOT required), and is unset when no name occurs. -/
theorem C5_platform_first_substring (q : String) :
    (parse_filters q).Platform = specPlatformRule q := by
  rw [specPlatformRule, ← findPlatform_eq_find]
  rfl

/-- C6: for every field present in the FilterSet, filtering retains exactly the
rows whose corresponding column contains the filter value as a
case-insensitive substring; a missing cell never matches any value. -/
theorem C6_filter_row_semantics (f : Filters) (rows : List SortieRow)
    (r : SortieRow) :
    (r ∈ applyFilters f rows ↔ r ∈ rows ∧ rowSatisfies f r = true)
    ∧ ∀ v : String, colMatches v none = false := by
  constructor
  · rw [applyFilters, mem_filterField, mem_filterField, mem_filterField,
      rowSatisfies]
    simp only [Bool.and_eq_true]
    tauto
  · intro v
    rfl

/-- C7: a query in which no keyword is recognized (the empty string included)
produces the empty FilterSet, filtering with it is the identity on the sortie
table, and the result equals the aggregate over the entire unfiltered table. -/
theorem C7_no_keywords_identity (t : Tables) (q : String)
    (hp : ∀ w ∈ platform_keywords, listContains w.data (lowerData q) = false)
    (hhigh : searchWord wHigh.data none (lowerData q) = false)
    (hlow : searchWord wLow.data none (lowerData q) = false)
    (hmed : searchWord wMedium.data none (lowerData q) = false)
    (hhs : listContains wHighSpeed.data (lowerData q) = false)
    (hfast : listContains wFast.data (lowerData q) = false)
    (hls : listContains wLowSpeed.data (lowerData q) = false)
    (hslow : listContains wSlow.data (lowerData q) = false)
    (hms : listContains wMediumSpeed.data (lowerData q) = false)
    (hsen : ∀ w ∈ sensor_keywords,
      listContains (lowerData w) (lowerData q) = false) :
    appliedOf q = emptyFilters
    ∧ applyFilters (appliedOf q) t.mapping = t.mapping
    ∧ draw_sensor_piechart t q = coverageFrom t.fixed t.mapping sPCL emptyFilters := by
  have hpf : parse_filters q =
      { Platform := none, Altitude := none, Speed := none, c_uas := some sPCL } := by
    simp only [parse_filters]
    rw [findPlatform_eq_none _ _ hp, findSensor_eq_none _ _ hsen]
    simp [hhigh, hlow, hmed, hhs, hfast, hls, hslow, hms]
  have ha : appliedOf q = emptyFilters := by
    rw [appliedOf, hpf]
    rfl
  have hsens : sensorOf q = sPCL := by
    rw [sensorOf, hpf]
    rfl
  refine ⟨ha, ?_, ?_⟩
  · rw [ha]
    rfl
  · rw [draw_sensor_piechart, ha, hsens]
    rfl

theorem C7_no_keywords_identity_witness :
    appliedOf qEmpty = emptyFilters
    ∧ applyFilters (appliedOf qEmpty) tC1.mapping = tC1.mapping
    ∧ draw_sensor_piechart tC1 qEmpty
        = coverageFrom tC1.fixed tC1.mapping sPCL emptyFilters :=
  C7_no_keywords_identity tC1 qEmpty (by decide) (by decide) (by decide)
    (by decide) (by decide) (by decide) (by decide) (by decide) (by decide)
    (by decide)

/-- C8: the sensor-of-interest equals the spec rule: the uppercased first
sensor-vocabulary name occurring in the query as a case-insensitive substring
(whole-word not required), with the fixed fallback "PCL" when none occurs. -/
theorem C8_sensor_rule (q : String) :
    sensorOf q = specSensorRule q
    ∧ (parse_filters q).c_uas = some (specSensorRule q) := by
  have hc : (parse_filters q).c_uas
      = some ((findSensor sensor_keywords (lowerData q)).getD sPCL) := rfl
  have hs : specSensorRule q
      = (findSensor sensor_keywords (lowerData q)).getD sPCL := by
    rw [specSensorRule, findSensor_eq_find]
    cases hf : sensor_keywords.find?
        (fun w => listContains (lowerData w) (lowerData q)) with
    | none => rfl
    | some w => rfl
  constructor
  · rw [sensorOf, hc, hs]
    rfl
  · rw [hc, hs]

/-- C9: the pipeline is deterministic: equal query strings over the same
loaded tables yield equal FilterSets and equal chart-and-summary results; the
embedded pipeline consults no randomness or external state. -/
theorem C9_deterministic (t : Tables) (q1 q2 : String) (h : q1 = q2) :
    parse_filters q1 = parse_filters q2
    ∧ draw_sensor_piechart t q1 = draw_sensor_piechart t q2 := by
  rw [h]
  exact ⟨rfl, rfl⟩

theorem C9_deterministic_witness :
    parse_filters qEmpty = parse_filters qEmpty
    ∧ draw_sensor_piechart tC1 qEmpty = draw_sensor_piechart tC1 qEmpty :=
  C9_deterministic tC1 qEmpty qEmpty rfl

/-- C10 counterexample: the query "xhigh speed" contains the substring
"high speed", and Speed is set to "Fast", but `\bhigh\b` finds no whole-word
"high" (it is embedded in "xhigh"), so Altitude is left unset — the claim's
universally quantified statement fails at this input. -/
theorem C10_counterexample :
    listContains wHighSpeed.data (lowerData qXHighSpeed) = true
    ∧ (parse_filters qXHighSpeed).Speed = some (sFast)
    ∧ (parse_filters qXHighSpeed).Altitude = none := by
  refine ⟨by decide, by decide, by decide⟩

/-- C10 (amended): for every query containing "high speed" as a substring in
which "high" also occurs as a whole word (as happens whenever the occurrence
of "high speed" is not immediately preceded by a letter, digit or underscore),
`parse_filters` sets both Speed = "Fast" and Altitude = "High": a speed-only
phrasing then additionally constrains the Altitude field. -/
theorem C10_high_speed_sets_altitude (q : String)
    (h1 : listContains wHighSpeed.data (lowerData q) = true)
    (h2 : searchWord wHigh.data none (lowerData q) = true) :
    (parse_filters q).Speed = some sFast
    ∧ (parse_filters q).Altitude = some sHigh := by
  constructor <;> simp [parse_filters, h1, h2]

theorem C10_high_speed_sets_altitude_witness :
    (parse_filters qHighSpeed).Speed = some sFast
    ∧ (parse_filters qHighSpeed).Altitude = some sHigh :=
  C10_high_speed_sets_altitude qHighSpeed (by decide) (by decide)
